import Mathlib

set_option maxRecDepth 16384

/-!
Verification development for the fast-api-for-custom-gpt repository.

The file shallowly embeds the claim-relevant logic of `app/auth.py` and
`app/main.py`:
* the `TokenVerifier` authentication gate (bearer-token handling, the
  deployment mock fallback, and `_enforce_scopes`),
* the `/authorize`, `/token` and `/api/oauth/callback` endpoints,
* the Python `json.dumps` / `json.loads` behaviour those endpoints rely on
  for the OAuth `state` round trip (default separators, `ensure_ascii`
  escaping, surrogate-pair encoding).

Network and cryptography steps (`PyJWKClient`, `jwt.decode`, `httpx`) are
abstracted as function arguments returning either a decoded payload or the
`str()` of the raised exception, exactly at the boundary where
`TokenVerifier.__call__` consumes them.
-/

namespace FastApiGpt

/-- Python truthiness of an `Optional[str]` value: `None` and `""` are falsy. -/
def truthyOpt : Option String → Bool
  | none => false
  | some s => s != ""

/-- Python `a or b` for `a : Optional[str]` and a string default `b`. -/
def pyOr (o : Option String) (d : String) : String :=
  match o with
  | none => d
  | some s => if s == "" then d else s

/-- Python `str.join`: `sep.join(xs)` (an empty list yields `""`). -/
def pyJoin (sep : String) : List String → String
  | [] => ""
  | [x] => x
  | x :: xs => x ++ sep ++ pyJoin sep xs

/-- ASCII whitespace recognised by Python `str.split()` with no argument. -/
def pyIsSpace (c : Char) : Bool :=
  c == ' ' || c == '\t' || c == '\n' || c == '\r' || c == '\x0b' || c == '\x0c'

/-- Longest whitespace-free run at the front of the input and the rest. -/
def pyTokenAux : List Char → List Char × List Char
  | [] => ([], [])
  | c :: cs =>
    if pyIsSpace c then ([], c :: cs)
    else
      let p := pyTokenAux cs
      (c :: p.1, p.2)

/-- Worker for `pySplit`; the fuel (one unit per character) keeps the
recursion structural, and a token always consumes at least one character. -/
def pySplitAux : Nat → List Char → List String
  | 0, _ => []
  | _ + 1, [] => []
  | fuel + 1, c :: cs =>
    if pyIsSpace c then pySplitAux fuel cs
    else
      let p := pyTokenAux cs
      String.mk (c :: p.1) :: pySplitAux fuel p.2

/-- Python `str.split()` with no argument: split on runs of whitespace and
drop empty pieces. -/
def pySplit (s : String) : List String :=
  pySplitAux s.data.length s.data

/-! ## app/auth.py -/

/-- The exception classes raised by the authentication gate
(`app/exceptions.py` provides `UnauthenticatedException` and
`UnauthorizedException`; `auth.py` raises the latter with a detail string). -/
inductive AuthExc where
  | unauthenticated
  | unauthorized (detail : String)
deriving DecidableEq

/-- The Python exception class name of an `AuthExc` value. -/
def excClass : AuthExc → String
  | .unauthenticated => "UnauthenticatedException"
  | .unauthorized _ => "UnauthorizedException"

/-- The exception class of the error of a failed computation
(`none` on success). -/
def errClassOf {α : Type} : Except AuthExc α → Option String
  | .error e => some (excClass e)
  | .ok _ => none

/-- Python `str(e)` of a gate exception, used when `TokenVerifier.__call__`
wraps a caught exception into `UnauthorizedException(f"Token validation
failed: {str(e)}")`; the detail string is the message the exception carries. -/
def excStr : AuthExc → String
  | .unauthenticated => ""
  | .unauthorized detail => detail

/-- The `scope` claim value of a decoded token.  `auth.py` line 83 handles a
string claim (split on whitespace) and a non-string claim used directly as a
list of scopes; `TokenClaims` declares the granted-scope claim to be a
space-delimited string. -/
inductive ScopeClaim where
  | str (s : String)
  | list (l : List String)
deriving DecidableEq

/-- A decoded token payload: its optional `scope` claim plus the remaining
claims (opaque pass-through mapping). -/
structure Payload where
  scopeClaim : Option ScopeClaim
  fields : List (String × String)
deriving DecidableEq

/-- The synthetic payload returned by `TokenVerifier.__call__` (auth.py
lines 43-48) when verification fails on an endpoint with no required
scopes. -/
def mockPayload : Payload :=
  { scopeClaim := none,
    fields := [("user_id", "mock-user-id"),
               ("email", "mock@example.com"),
               ("note", "Mock response for deployment testing")] }

/-- Embeds `TokenVerifier._enforce_scopes` (auth.py lines 78-93):
a missing `scope` claim raises `UnauthorizedException('Missing required
claim: "scope"')`; otherwise the granted scopes are the whitespace-split
claim (or the claim itself when it is a list) and every required scope not
among them is reported in the `UnauthorizedException` detail. -/
def enforce_scopes (scope_claim : Option ScopeClaim) (required_scopes : List String) :
    Except AuthExc Unit :=
  match scope_claim with
  | none => .error (.unauthorized "Missing required claim: \"scope\"")
  | some sc =>
    let scopes : List String :=
      match sc with
      | .str s => pySplit s
      | .list l => l
    let missing := required_scopes.filter (fun scope => !(scopes.contains scope))
    if missing.isEmpty then .ok ()
    else .error (.unauthorized ("Missing required scopes: " ++ ", ".intercalate missing))

/-- Embeds `TokenVerifier.__call__` (auth.py lines 21-51).  The composite
`_get_signing_key` / `_decode_token` step (network and cryptography) is
abstracted as the `verify` argument which returns either the decoded payload
or the `str()` of the exception it raised.  The `try` block covers
verification and scope enforcement; on any exception the gate returns the
mock payload when no scopes are required and otherwise re-raises
`UnauthorizedException(f"Token validation failed: {str(e)}")`. -/
def tokenVerifierCall (security_scopes : List String) (token : Option String)
    (verify : String → Except String Payload) : Except AuthExc Payload :=
  match token with
  | none => .error .unauthenticated
  | some t =>
    let attempt : Except String Payload := do
      let payload ← verify t
      if !security_scopes.isEmpty then
        match enforce_scopes payload.scopeClaim security_scopes with
        | .ok _ => pure payload
        | .error e => throw (excStr e)
      else
        pure payload
    match attempt with
    | .ok payload => .ok payload
    | .error e =>
      if security_scopes.isEmpty then .ok mockPayload
      else .error (.unauthorized ("Token validation failed: " ++ e))

/-! ## Python `json` values

`json.loads` produces `dict` / `list` / `str` / numbers / booleans / `None`.
Numbers are kept as their source lexeme (the claims never inspect a numeric
value).  Python strings containing lone surrogate code units cannot be
represented by Lean `String`; inputs that would produce them are treated as
parse failures (they are outside the image of `json.dumps` on real text). -/

inductive Json where
  | null
  | bool (b : Bool)
  | num (raw : String)
  | str (s : String)
  | arr (items : List Json)
  | obj (members : List (String × Json))

/-- Python `dict` lookup for an association list built by `json.loads`
(later duplicate keys overwrite earlier ones). -/
def dictGet (members : List (String × Json)) (key : String) : Option Json :=
  members.foldl (fun acc kv => if kv.1 == key then some kv.2 else acc) none

/-- Truthiness of a JSON number lexeme: zero iff every mantissa digit is `0`
(the exponent cannot make a non-zero mantissa zero); the constants `NaN`,
`Infinity` and `-Infinity` are truthy. -/
def pyNumTruthy (raw : String) : Bool :=
  (raw.takeWhile (fun c => c != 'e' && c != 'E')).any (fun c => '1' ≤ c && c ≤ '9') ||
    raw.any (fun c => c == 'N' || c == 'I')

/-- Python truthiness of a parsed JSON value. -/
def pyTruthy : Json → Bool
  | .null => false
  | .bool b => b
  | .num raw => pyNumTruthy raw
  | .str s => s != ""
  | .arr items => !items.isEmpty
  | .obj members => !members.isEmpty

/-- Python `repr` of a parsed JSON value (container and string rendering is
approximate — no claim evaluates it on anything but the atoms). -/
def pyRepr : Json → String
  | .null => "None"
  | .bool true => "True"
  | .bool false => "False"
  | .num raw => raw
  | .str s => "\x27" ++ s ++ "\x27"
  | .arr items => "[" ++ ", ".intercalate (items.attach.map (fun it => pyRepr it.1)) ++ "]"
  | .obj members =>
      "\x7b" ++
        ", ".intercalate (members.attach.map
          (fun kv => "\x27" ++ kv.1.1 ++ "\x27: " ++ pyRepr kv.1.2)) ++
        "\x7d"
decreasing_by
  · have h := List.sizeOf_lt_of_mem it.2
    simp at h ⊢
    omega
  · obtain ⟨⟨k, v⟩, hm⟩ := kv
    have h := List.sizeOf_lt_of_mem hm
    simp at h ⊢
    omega

/-- Python `str()` of a parsed JSON value (used by the f-string URL
construction in the callback); it equals `repr` except on strings. -/
def pyStr : Json → String
  | .str s => s
  | j => pyRepr j

/-! ### `json.dumps` string escaping (`ensure_ascii=True`, the default) -/

/-- The lowercase hex digit for `n < 16`. -/
def hexDigitChar (n : Nat) : Char :=
  if n < 10 then Char.ofNat (48 + n) else Char.ofNat (87 + n)

/-- Four lowercase hex digits of `n < 0x10000`, most significant first. -/
def hex4 (n : Nat) : List Char :=
  [hexDigitChar (n / 4096 % 16), hexDigitChar (n / 256 % 16),
   hexDigitChar (n / 16 % 16), hexDigitChar (n % 16)]

/-- `json.encoder.py_encode_basestring_ascii` escaping of one character:
backslash, quote and the named control characters get two-character escapes,
every other character outside `0x20..0x7e` becomes `\uXXXX` (one escape for
the basic plane, a surrogate pair above it), and printable ASCII is kept. -/
def encChar (c : Char) : List Char :=
  if c = '\\' then ['\\', '\\']
  else if c = '"' then ['\\', '"']
  else if c = Char.ofNat 8 then ['\\', 'b']
  else if c = Char.ofNat 9 then ['\\', 't']
  else if c = Char.ofNat 10 then ['\\', 'n']
  else if c = Char.ofNat 12 then ['\\', 'f']
  else if c = Char.ofNat 13 then ['\\', 'r']
  else if 0x20 ≤ c.toNat ∧ c.toNat ≤ 0x7e then [c]
  else if c.toNat < 0x10000 then '\\' :: 'u' :: hex4 c.toNat
  else
    let n := c.toNat - 0x10000
    ('\\' :: 'u' :: hex4 (0xd800 + n / 1024)) ++ ('\\' :: 'u' :: hex4 (0xdc00 + n % 1024))

/-- Escape every character of a string body. -/
def encodeStringChars : List Char → List Char
  | [] => []
  | c :: rest => encChar c ++ encodeStringChars rest

/-- The JSON quoted-string literal for `s` as produced by `json.dumps`. -/
def pyEncodeString (s : String) : String :=
  String.mk ('"' :: (encodeStringChars s.data ++ ['"']))

/-- Character sequence of
`json.dumps({"state": <state>, "redirect_uri": <redirect_uri>})` with the
default separators (`", "` and `": "`) and `ensure_ascii=True`: the two keys
are printable ASCII and therefore encode to themselves. -/
def stateObjChars (state redirect_uri : List Char) : List Char :=
  ['\x7b', '"', 's', 't', 'a', 't', 'e', '"', ':', ' ', '"'] ++
    (encodeStringChars state ++
      (['"', ',', ' ', '"', 'r', 'e', 'd', 'i', 'r', 'e', 'c', 't', '_',
        'u', 'r', 'i', '"', ':', ' ', '"'] ++
        (encodeStringChars redirect_uri ++ ['"', '\x7d'])))

/-- `json.dumps` of the `state_with_redirect` dict built at main.py
lines 79-82 and serialized at line 96. -/
def pyJsonDumpsStateObj (state redirect_uri : String) : String :=
  String.mk (stateObjChars state.data redirect_uri.data)

/-! ### `json.loads` (the pure-Python scanner with `strict=True`) -/

/-- JSON whitespace (`json.decoder.WHITESPACE_STR`). -/
def jsonWs (c : Char) : Bool :=
  c == ' ' || c == '\t' || c == '\n' || c == '\r'

/-- Drop leading JSON whitespace. -/
def skipWs : List Char → List Char
  | [] => []
  | c :: cs => if jsonWs c then skipWs cs else c :: cs

/-- Value of one hex digit (`int(_, 16)` accepts either case). -/
def hexVal (c : Char) : Option Nat :=
  if '0' ≤ c ∧ c ≤ '9' then some (c.toNat - 48)
  else if 'a' ≤ c ∧ c ≤ 'f' then some (c.toNat - 87)
  else if 'A' ≤ c ∧ c ≤ 'F' then some (c.toNat - 55)
  else none

/-- Value of a four-hex-digit escape. -/
def hex4Val (a b c d : Char) : Option Nat := do
  let x ← hexVal a
  let y ← hexVal b
  let z ← hexVal c
  let w ← hexVal d
  pure (4096 * x + 256 * y + 16 * z + w)

/-- The two-character escapes accepted by `json.decoder` (`BACKSLASH`). -/
def shortEscape (c : Char) : Option Char :=
  if c = '"' then some '"'
  else if c = '\\' then some '\\'
  else if c = '/' then some '/'
  else if c = 'b' then some (Char.ofNat 8)
  else if c = 'f' then some (Char.ofNat 12)
  else if c = 'n' then some (Char.ofNat 10)
  else if c = 'r' then some (Char.ofNat 13)
  else if c = 't' then some (Char.ofNat 9)
  else none

/-- Continuation of `py_scanstring`'s `\uXXXX` handling after a high
surrogate `hi`: the input must continue with a `\u`-escaped low surrogate,
and the pair is combined into one code point. -/
def decodeLowSurrogate (hi : Nat) : List Char → Option (Char × List Char)
  | '\\' :: 'u' :: e :: f :: g :: h :: rest2 =>
    (match hex4Val e f g h with
    | none => none
    | some m =>
      if 0xdc00 ≤ m ∧ m ≤ 0xdfff then
        some (Char.ofNat (0x10000 + 1024 * (hi - 0xd800) + (m - 0xdc00)), rest2)
      else none)
  | _ => none

/-- `json.decoder.py_scanstring`'s `\uXXXX` handling, starting right after
the `\u`: decode four hex digits; a high surrogate must be followed by a
`\u`-escaped low surrogate and the pair is combined; a lone surrogate escape
is rejected (Python would produce a string holding a surrogate code unit,
which Lean strings cannot represent). -/
def decodeUEscape : List Char → Option (Char × List Char)
  | a :: b :: c :: d :: rest =>
    (match hex4Val a b c d with
    | none => none
    | some n =>
      if 0xd800 ≤ n ∧ n ≤ 0xdbff then decodeLowSurrogate n rest
      else if 0xdc00 ≤ n ∧ n ≤ 0xdfff then none
      else some (Char.ofNat n, rest))
  | _ => none

/-- Worker for `py_scanstring` after the opening quote, returning the decoded
characters and the input after the closing quote.  Unescaped control
characters are rejected (`strict=True`).  The fuel (one unit per decoded
character) keeps the recursion structural; every step consumes at least one
input character. -/
def parseStringBodyF : Nat → List Char → Option (List Char × List Char)
  | 0, _ => none
  | fuel + 1, input =>
    match input with
    | [] => none
    | '"' :: rest => some ([], rest)
    | '\\' :: 'u' :: rest =>
      (match decodeUEscape rest with
      | some (ch, rest2) =>
        (match parseStringBodyF fuel rest2 with
        | some (cs, r) => some (ch :: cs, r)
        | none => none)
      | none => none)
    | '\\' :: e :: rest =>
      (match shortEscape e with
      | some ec =>
        (match parseStringBodyF fuel rest with
        | some (cs, r) => some (ec :: cs, r)
        | none => none)
      | none => none)
    | '\\' :: [] => none
    | c :: rest =>
      if c.toNat < 0x20 then none
      else
        match parseStringBodyF fuel rest with
        | some (cs, r) => some (c :: cs, r)
        | none => none

/-- `py_scanstring` after the opening quote; the fuel `length + 1` is always
sufficient because every decoded character consumes input. -/
def parseStringBody (l : List Char) : Option (List Char × List Char) :=
  parseStringBodyF (l.length + 1) l

/-- Decimal digit test. -/
def isDigit (c : Char) : Bool := '0' ≤ c && c ≤ '9'

/-- Longest digit run at the front of the input. -/
def takeDigits : List Char → List Char × List Char
  | [] => ([], [])
  | c :: cs =>
    if isDigit c then
      let p := takeDigits cs
      (c :: p.1, p.2)
    else ([], c :: cs)

/-- Integer part of `json.decoder.NUMBER_RE`: `0` or a nonzero digit followed
by digits. -/
def parseIntPart : List Char → Option (List Char × List Char)
  | [] => none
  | c :: cs =>
    if c = '0' then some (['0'], cs)
    else if '1' ≤ c && c ≤ '9' then
      let p := takeDigits cs
      some (c :: p.1, p.2)
    else none

/-- `json.decoder.NUMBER_RE`: `(-?(0|[1-9]\d*))(\.\d+)?([eE][-+]?\d+)?`,
returning the matched lexeme; a fraction or exponent group without digits is
simply not matched, as with the regex. -/
def parseNumber (input : List Char) : Option (List Char × List Char) :=
  let head : List Char × List Char :=
    match input with
    | '-' :: cs => (['-'], cs)
    | _ => ([], input)
  match parseIntPart head.2 with
  | none => none
  | some (ip, r1) =>
    let frac : List Char × List Char :=
      match r1 with
      | '.' :: cs =>
        let p := takeDigits cs
        if p.1.isEmpty then ([], r1) else ('.' :: p.1, p.2)
      | _ => ([], r1)
    let ex : List Char × List Char :=
      match frac.2 with
      | e :: cs =>
        if e == 'e' || e == 'E' then
          let sgn : List Char × List Char :=
            match cs with
            | s :: cs2 => if s == '+' || s == '-' then ([s], cs2) else ([], cs)
            | [] => ([], cs)
          let p := takeDigits sgn.2
          if p.1.isEmpty then ([], frac.2) else (e :: (sgn.1 ++ p.1), p.2)
        else ([], frac.2)
      | [] => ([], frac.2)
    some (head.1 ++ ip ++ frac.1 ++ ex.1, ex.2)

/-- Member loop of `json.decoder.JSONObject`, parameterised by the parser
`pv` used for member values: the input starts at a `"`-quoted key;
whitespace is allowed around `:` and `,`; a trailing comma or a non-string
key is an error.  The fuel (one unit per member, each member consuming at
least one input character) keeps the recursion structural. -/
def parseMembersGo (pv : List Char → Option (Json × List Char)) :
    Nat → List Char → List (String × Json) → Option (Json × List Char)
  | 0, _, _ => none
  | fuel + 1, input, acc =>
    match input with
    | '"' :: r =>
      (match parseStringBody r with
      | some (kcs, r2) =>
        (match skipWs r2 with
        | ':' :: r3 =>
          (match pv (skipWs r3) with
          | some (v, r4) =>
            (match skipWs r4 with
            | ',' :: r5 => parseMembersGo pv fuel (skipWs r5) (acc ++ [(String.mk kcs, v)])
            | '\x7d' :: r5 => some (.obj (acc ++ [(String.mk kcs, v)]), r5)
            | _ => none)
          | none => none)
        | _ => none)
      | none => none)
    | _ => none

/-- Item loop of `json.decoder.JSONArray`, parameterised by the parser used
for the items. -/
def parseItemsGo (pv : List Char → Option (Json × List Char)) :
    Nat → List Char → List Json → Option (Json × List Char)
  | 0, _, _ => none
  | fuel + 1, input, acc =>
    match pv input with
    | some (v, r) =>
      (match skipWs r with
      | ',' :: r2 => parseItemsGo pv fuel (skipWs r2) (acc ++ [v])
      | ']' :: r2 => some (.arr (acc ++ [v]), r2)
      | _ => none)
    | none => none

/-- `json.scanner.py_make_scanner`'s `_scan_once`: parse one JSON value
starting at the first input character (no leading whitespace).  The fuel
bounds the nesting depth only (the member and item loops carry their own
input-length fuel); `jsonParse` supplies more fuel than any input can
consume, since each nesting level consumes at least one character. -/
def parseValue : Nat → List Char → Option (Json × List Char)
  | 0, _ => none
  | _ + 1, [] => none
  | fuel + 1, c :: rest =>
    if c = '"' then
      match parseStringBody rest with
      | some (cs, r) => some (.str (String.mk cs), r)
      | none => none
    else if c = '\x7b' then
      let rest2 := skipWs rest
      match rest2 with
      | '\x7d' :: r => some (.obj [], r)
      | _ => parseMembersGo (parseValue fuel) (rest2.length + 1) rest2 []
    else if c = '[' then
      let rest2 := skipWs rest
      match rest2 with
      | ']' :: r => some (.arr [], r)
      | _ => parseItemsGo (parseValue fuel) (rest2.length + 1) rest2 []
    else
      match c :: rest with
      | 'n' :: 'u' :: 'l' :: 'l' :: r => some (.null, r)
      | 't' :: 'r' :: 'u' :: 'e' :: r => some (.bool true, r)
      | 'f' :: 'a' :: 'l' :: 's' :: 'e' :: r => some (.bool false, r)
      | 'N' :: 'a' :: 'N' :: r => some (.num "NaN", r)
      | 'I' :: 'n' :: 'f' :: 'i' :: 'n' :: 'i' :: 't' :: 'y' :: r => some (.num "Infinity", r)
      | '-' :: 'I' :: 'n' :: 'f' :: 'i' :: 'n' :: 'i' :: 't' :: 'y' :: r =>
          some (.num "-Infinity", r)
      | l =>
        match parseNumber l with
        | some (lex, r) => some (.num (String.mk lex), r)
        | none => none

/-- `json.loads`: skip leading whitespace, scan one value, require at most
trailing whitespace.  Fuel `length + 2` never runs out, since every nesting
level consumes at least one input character. -/
def jsonParse (s : String) : Option Json :=
  match parseValue (s.length + 2) (skipWs s.data) with
  | some (v, rest) => if (skipWs rest).isEmpty then some v else none
  | none => none

/-! ## app/main.py -/

/-- The settings fields used by the OAuth endpoints
(`app/config.py`, `Settings`). -/
structure Settings where
  descope_inbound_app_client_id : String
  descope_inbound_app_client_secret : String
deriving DecidableEq

/-- The fixed callback address registered with the provider
(main.py lines 93 and 189). -/
def callbackUri : String := "https://fast-api-for-custom-gpt.vercel.app/api/oauth/callback"

/-- The provider's authorization endpoint (main.py line 85). -/
def descopeAuthorizeUrl : String := "https://api.descope.com/oauth2/v1/apps/authorize"

/-- The provider's token endpoint (main.py line 195). -/
def descopeTokenUrl : String := "https://api.descope.com/oauth2/v1/apps/token"

/-- The fallback caller redirect target of the callback endpoint
(main.py lines 263, 269 and 273). -/
def defaultCallerRedirect : String := "https://chat.openai.com/oauth/callback"

/-- Outcome of a caller-facing GET endpoint: an `HTTPException` with an
`error` / `error_description` detail, or a `RedirectResponse`. -/
inductive HttpResult where
  | httpError (status : Nat) (error : String) (error_description : Option String)
  | redirect (url : String)
deriving DecidableEq

/-- Outcome of the `/token` endpoint before the network call: an
`HTTPException`, or the back-channel POST it is about to make, recorded as
the target URL and the form body. -/
inductive TokenResult where
  | httpError (status : Nat) (error : String) (error_description : String)
  | exchange (url : String) (body : List (String × String))
deriving DecidableEq

/-- Embeds the `/authorize` endpoint (main.py lines 44-104): validate
`client_id` / `redirect_uri` / `response_type`, require `response_type ==
"code"`, wrap the caller's `redirect_uri` and `state` into the serialized
`state_with_redirect` JSON object, and redirect to the provider with a query
string built by joining raw `k=v` pairs with `&`. -/
def authorize (settings : Settings)
    (response_type client_id redirect_uri scope state : Option String) : HttpResult :=
  if !truthyOpt client_id || !truthyOpt redirect_uri || !truthyOpt response_type then
    .httpError 400 "invalid_request" (some "Missing required parameters")
  else if response_type != some "code" then
    .httpError 400 "unsupported_response_type" (some "Only \"code\" is supported")
  else
    let state_with_redirect := pyJsonDumpsStateObj (pyOr state "") (redirect_uri.getD "")
    let params : List (String × String) :=
      [("client_id", settings.descope_inbound_app_client_id),
       ("redirect_uri", callbackUri),
       ("response_type", "code"),
       ("scope", pyOr scope "openid"),
       ("state", state_with_redirect)]
    let query_string := pyJoin "&" (params.map (fun kv => kv.1 ++ "=" ++ kv.2))
    .redirect (descopeAuthorizeUrl ++ "?" ++ query_string)

/-- The caller-supplied fields the `/token` endpoint reads from the parsed
request body via `body.get` (main.py lines 144-147). -/
structure TokenRequestBody where
  grant_type : Option String
  code : Option String
  client_id : Option String
  client_secret : Option String
deriving DecidableEq

/-- Embeds the `/token` endpoint up to the outbound POST (main.py
lines 144-202): all four body fields are validated for presence, the grant
type must be `authorization_code`, the configured credentials must be set,
and the forwarded form body takes `client_id` / `client_secret` from the
process configuration, not from the caller. -/
def tokenEndpoint (config : Settings) (body : TokenRequestBody) : TokenResult :=
  if !truthyOpt body.grant_type || !truthyOpt body.code ||
      !truthyOpt body.client_id || !truthyOpt body.client_secret then
    .httpError 400 "invalid_request" "Missing required parameters"
  else if body.grant_type != some "authorization_code" then
    .httpError 400 "unsupported_grant_type" "Only authorization_code is supported"
  else if config.descope_inbound_app_client_id == "" ||
      config.descope_inbound_app_client_secret == "" then
    .httpError 500 "server_error" "OAuth configuration incomplete"
  else
    .exchange descopeTokenUrl
      [("grant_type", "authorization_code"),
       ("client_id", config.descope_inbound_app_client_id),
       ("client_secret", config.descope_inbound_app_client_secret),
       ("code", body.code.getD ""),
       ("redirect_uri", callbackUri)]

/-- Embeds main.py lines 262-274: recover `(original_redirect_uri,
original_state)` from the callback's optional `state` parameter.  The
`except` branch covers both a `json.loads` failure and the `AttributeError`
of `.get` on a non-dict value, falling back to the default redirect target
and the raw state string. -/
def recoverState (state : Option String) : Json × Json :=
  match state with
  | none => (.str defaultCallerRedirect, .str "")
  | some st =>
    if st == "" then (.str defaultCallerRedirect, .str "")
    else
      match jsonParse st with
      | some (Json.obj members) =>
          ((dictGet members "redirect_uri").getD (.str defaultCallerRedirect),
           (dictGet members "state").getD (.str ""))
      | _ => (.str defaultCallerRedirect, .str st)

/-- Embeds the `/api/oauth/callback` endpoint (main.py lines 229-281):
propagate a provider error, require a code, recover the caller's redirect
target and state, and redirect with `code` and, when truthy, `state`
appended. -/
def oauth_callback (code state error error_description : Option String) : HttpResult :=
  if truthyOpt error then
    .httpError 400 (error.getD "") error_description
  else if !truthyOpt code then
    .httpError 400 "invalid_request" (some "No authorization code received")
  else
    let p := recoverState state
    let redirect_url := pyStr p.1 ++ "?code=" ++ code.getD ""
    if pyTruthy p.2 then .redirect (redirect_url ++ "&state=" ++ pyStr p.2)
    else .redirect redirect_url

/-! ## Helper lemmas -/

/-- `List.contains` agrees with membership for strings. -/
theorem contains_iff (l : List String) (r : String) : l.contains r = true ↔ r ∈ l := by
  simp [List.contains_eq_any_beq, List.any_eq_true]

/-! ### Inversion of the `json.dumps` string escaping -/

theorem hexVal_hexDigitChar (n : Nat) (h : n < 16) :
    hexVal (hexDigitChar n) = some n := by
  interval_cases n <;> rfl

theorem hex4Val_hex4 (n : Nat) (h : n < 0x10000) :
    hex4Val (hexDigitChar (n / 4096 % 16)) (hexDigitChar (n / 256 % 16))
      (hexDigitChar (n / 16 % 16)) (hexDigitChar (n % 16)) = some n := by
  unfold hex4Val
  rw [hexVal_hexDigitChar _ (by omega), hexVal_hexDigitChar _ (by omega),
    hexVal_hexDigitChar _ (by omega), hexVal_hexDigitChar _ (by omega)]
  exact congrArg some (by omega)

theorem decodeUEscape_bmp (n : Nat) (hn : n < 0x10000)
    (h1 : ¬(0xd800 ≤ n ∧ n ≤ 0xdbff)) (h2 : ¬(0xdc00 ≤ n ∧ n ≤ 0xdfff))
    (l : List Char) :
    decodeUEscape (hex4 n ++ l) = some (Char.ofNat n, l) := by
  simp only [hex4, List.cons_append, List.nil_append]
  simp only [decodeUEscape]
  rw [hex4Val_hex4 n hn]
  simp only []
  rw [if_neg h1, if_neg h2]

theorem decodeLowSurrogate_hex4 (hi m : Nat) (hm1 : m < 0x10000)
    (hm : 0xdc00 ≤ m ∧ m ≤ 0xdfff) (l : List Char) :
    decodeLowSurrogate hi ('\\' :: 'u' :: (hex4 m ++ l)) =
      some (Char.ofNat (0x10000 + 1024 * (hi - 0xd800) + (m - 0xdc00)), l) := by
  simp only [hex4, List.cons_append, List.nil_append]
  simp only [decodeLowSurrogate]
  rw [hex4Val_hex4 m hm1]
  simp only []
  rw [if_pos hm]

theorem decodeUEscape_hi (n : Nat) (hn1 : n < 0x10000) (hn : 0xd800 ≤ n ∧ n ≤ 0xdbff)
    (rest : List Char) :
    decodeUEscape (hex4 n ++ rest) = decodeLowSurrogate n rest := by
  simp only [hex4, List.cons_append, List.nil_append]
  simp only [decodeUEscape]
  rw [hex4Val_hex4 n hn1]
  simp only []
  rw [if_pos hn]

theorem decodeUEscape_pair (v : Nat) (h1 : 0x10000 ≤ v) (h2 : v < 0x110000)
    (l : List Char) :
    decodeUEscape (hex4 (0xd800 + (v - 0x10000) / 1024) ++
      ('\\' :: 'u' :: (hex4 (0xdc00 + (v - 0x10000) % 1024) ++ l))) =
      some (Char.ofNat v, l) := by
  rw [decodeUEscape_hi _ (by omega) (by constructor <;> omega)]
  rw [decodeLowSurrogate_hex4 _ _ (by omega) (by constructor <;> omega)]
  exact congrArg (fun k => some (Char.ofNat k, l)) (by omega)

theorem parseStringBodyF_plain (fuel : Nat) (c : Char) (l : List Char)
    (hq : c ≠ '"') (hbs : c ≠ '\\') (hctl : ¬(c.toNat < 0x20)) :
    parseStringBodyF (fuel + 1) (c :: l) =
      match parseStringBodyF fuel l with
      | some (cs, r) => some (c :: cs, r)
      | none => none := by
  rw [parseStringBodyF.eq_def]
  split
  · omega
  · rename_i x1 x2 fuel2 heq
    obtain rfl : fuel2 = fuel := by omega
    split
    · rename_i h; exact absurd h (by simp)
    · rename_i h; injection h with h1 h2; exact absurd h1 hq
    · rename_i h; injection h with h1 h2; exact absurd h1 hbs
    · rename_i h; injection h with h1 h2; exact absurd h1 hbs
    · rename_i h; injection h with h1 h2; exact absurd h1 hbs
    · rename_i heq2
      injection heq2 with h1 h2
      subst h1; subst h2
      rw [if_neg hctl]

theorem parseStringBodyF_uescape (fuel : Nat) (rest : List Char) :
    parseStringBodyF (fuel + 1) ('\\' :: 'u' :: rest) =
      match decodeUEscape rest with
      | some (ch, rest2) =>
        (match parseStringBodyF fuel rest2 with
        | some (cs, r) => some (ch :: cs, r)
        | none => none)
      | none => none := rfl

theorem parseStringBodyF_encChar (c : Char) (fuel : Nat) (l : List Char) :
    parseStringBodyF (fuel + 1) (encChar c ++ l) =
      match parseStringBodyF fuel l with
      | some (cs, r) => some (c :: cs, r)
      | none => none := by
  by_cases hbs : c = '\\'
  · subst hbs; rfl
  by_cases hq : c = '"'
  · subst hq; rfl
  by_cases h8 : c = Char.ofNat 8
  · subst h8; rfl
  by_cases h9 : c = Char.ofNat 9
  · subst h9; rfl
  by_cases h10 : c = Char.ofNat 10
  · subst h10; rfl
  by_cases h12 : c = Char.ofNat 12
  · subst h12; rfl
  by_cases h13 : c = Char.ofNat 13
  · subst h13; rfl
  have henc : encChar c =
      (if 0x20 ≤ c.toNat ∧ c.toNat ≤ 0x7e then [c]
       else if c.toNat < 0x10000 then '\\' :: 'u' :: hex4 c.toNat
       else ('\\' :: 'u' :: hex4 (0xd800 + (c.toNat - 0x10000) / 1024)) ++
         ('\\' :: 'u' :: hex4 (0xdc00 + (c.toNat - 0x10000) % 1024))) := by
    unfold encChar
    rw [if_neg hbs, if_neg hq, if_neg h8, if_neg h9, if_neg h10, if_neg h12, if_neg h13]
  by_cases hpr : 0x20 ≤ c.toNat ∧ c.toNat ≤ 0x7e
  · rw [henc, if_pos hpr]
    exact parseStringBodyF_plain fuel c l hq hbs (by omega)
  by_cases hbmp : c.toNat < 0x10000
  · rw [henc, if_neg hpr, if_pos hbmp]
    show parseStringBodyF (fuel + 1) ('\\' :: 'u' :: (hex4 c.toNat ++ l)) = _
    rw [parseStringBodyF_uescape]
    rw [decodeUEscape_bmp c.toNat hbmp (by have hv : c.toNat < 0xd800 ∨ (0xdfff < c.toNat ∧ c.toNat < 0x110000) := c.valid; rcases hv with h | h <;> omega)
      (by have hv : c.toNat < 0xd800 ∨ (0xdfff < c.toNat ∧ c.toNat < 0x110000) := c.valid; rcases hv with h | h <;> omega) l]
    simp only [Char.ofNat_toNat]
  · rw [henc, if_neg hpr, if_neg hbmp]
    show parseStringBodyF (fuel + 1)
      ('\\' :: 'u' :: (hex4 (0xd800 + (c.toNat - 0x10000) / 1024) ++
        ('\\' :: 'u' :: (hex4 (0xdc00 + (c.toNat - 0x10000) % 1024) ++ l)))) = _
    rw [parseStringBodyF_uescape]
    rw [decodeUEscape_pair c.toNat (by omega) (by have hv : c.toNat < 0xd800 ∨ (0xdfff < c.toNat ∧ c.toNat < 0x110000) := c.valid; rcases hv with h | h <;> omega) l]
    simp only [Char.ofNat_toNat]

theorem parseStringBodyF_encode (cs : List Char) : ∀ (fuel : Nat) (l : List Char),
    cs.length < fuel →
    parseStringBodyF fuel (encodeStringChars cs ++ ('"' :: l)) = some (cs, l) := by
  induction cs with
  | nil =>
    intro fuel l hf
    cases fuel with
    | zero => exact absurd hf (by omega)
    | succ f => rfl
  | cons c cs ih =>
    intro fuel l hf
    cases fuel with
    | zero => exact absurd hf (by omega)
    | succ f =>
      show parseStringBodyF (f + 1) ((encChar c ++ encodeStringChars cs) ++ ('"' :: l)) = _
      rw [List.append_assoc]
      rw [parseStringBodyF_encChar]
      rw [ih f l (by simp only [List.length_cons] at hf; omega)]

theorem encodeStringChars_length (cs : List Char) :
    cs.length ≤ (encodeStringChars cs).length := by
  induction cs with
  | nil => simp [encodeStringChars]
  | cons c cs ih =>
    show cs.length + 1 ≤ (encChar c ++ encodeStringChars cs).length
    rw [List.length_append]
    have hc : 1 ≤ (encChar c).length := by
      unfold encChar
      split_ifs <;> simp [hex4]
    omega

theorem parseStringBody_encode (cs l : List Char) :
    parseStringBody (encodeStringChars cs ++ ('"' :: l)) = some (cs, l) := by
  unfold parseStringBody
  apply parseStringBodyF_encode
  have h := encodeStringChars_length cs
  simp only [List.length_append, List.length_cons]
  omega

/-! ### Round trip of the serialized state object -/

theorem parseValue_encodedString (f : Nat) (v rest : List Char) :
    parseValue (f + 1) ('"' :: (encodeStringChars v ++ ('"' :: rest))) =
      some (Json.str (String.mk v), rest) := by
  have hstep : parseValue (f + 1) ('"' :: (encodeStringChars v ++ ('"' :: rest))) =
      (match parseStringBody (encodeStringChars v ++ ('"' :: rest)) with
       | some (cs, r) => some (Json.str (String.mk cs), r)
       | none => none) := rfl
  rw [hstep, parseStringBody_encode]

theorem parseMembersGo_strMember (pv : List Char → Option (Json × List Char)) (f : Nat)
    (key v rest : List Char) (acc : List (String × Json))
    (hv : pv ('"' :: (encodeStringChars v ++ ('"' :: rest))) =
      some (Json.str (String.mk v), rest)) :
    parseMembersGo pv (f + 1) ('"' :: (encodeStringChars key ++ ('"' :: ':' :: ' ' :: '"' ::
        (encodeStringChars v ++ ('"' :: rest))))) acc =
      (match skipWs rest with
       | ',' :: r5 => parseMembersGo pv f (skipWs r5)
           (acc ++ [(String.mk key, Json.str (String.mk v))])
       | '\x7d' :: r5 => some (.obj (acc ++ [(String.mk key, Json.str (String.mk v))]), r5)
       | _ => none) := by
  have hstep : parseMembersGo pv (f + 1) ('"' :: (encodeStringChars key ++ ('"' :: ':' :: ' ' ::
      '"' :: (encodeStringChars v ++ ('"' :: rest))))) acc =
      (match parseStringBody (encodeStringChars key ++ ('"' :: ':' :: ' ' :: '"' ::
          (encodeStringChars v ++ ('"' :: rest)))) with
      | some (kcs, r2) =>
        (match skipWs r2 with
        | ':' :: r3 =>
          (match pv (skipWs r3) with
          | some (v2, r4) =>
            (match skipWs r4 with
            | ',' :: r5 => parseMembersGo pv f (skipWs r5) (acc ++ [(String.mk kcs, v2)])
            | '\x7d' :: r5 => some (.obj (acc ++ [(String.mk kcs, v2)]), r5)
            | _ => none)
          | none => none)
        | _ => none)
      | none => none) := rfl
  rw [hstep]
  rw [show parseStringBody (encodeStringChars key ++ ('"' :: ':' :: ' ' :: '"' ::
      (encodeStringChars v ++ ('"' :: rest)))) =
      some (key, ':' :: ' ' :: '"' :: (encodeStringChars v ++ ('"' :: rest)))
    from parseStringBody_encode key _]
  simp only []
  rw [show skipWs (':' :: ' ' :: '"' :: (encodeStringChars v ++ ('"' :: rest))) =
      ':' :: ' ' :: '"' :: (encodeStringChars v ++ ('"' :: rest)) from rfl]
  simp only []
  rw [show skipWs (' ' :: '"' :: (encodeStringChars v ++ ('"' :: rest))) =
      '"' :: (encodeStringChars v ++ ('"' :: rest)) from rfl]
  rw [hv]

theorem parseMembersGo_twoStrMembers (pv : List Char → Option (Json × List Char)) (g : Nat)
    (st ru : List Char)
    (hv1 : pv ('"' :: (encodeStringChars st ++ ('"' :: (',' :: ' ' :: '"' :: (encodeStringChars ['r', 'e', 'd', 'i', 'r', 'e', 'c', 't', '_', 'u', 'r', 'i'] ++ ('"' :: ':' :: ' ' :: '"' :: (encodeStringChars ru ++ ('"' :: ('\x7d' :: []))))))))) = some (Json.str (String.mk st), ',' :: ' ' :: '"' :: (encodeStringChars ['r', 'e', 'd', 'i', 'r', 'e', 'c', 't', '_', 'u', 'r', 'i'] ++ ('"' :: ':' :: ' ' :: '"' :: (encodeStringChars ru ++ ('"' :: ('\x7d' :: [])))))))
    (hv2 : pv ('"' :: (encodeStringChars ru ++ ('"' :: ('\x7d' :: [])))) = some (Json.str (String.mk ru), '\x7d' :: [])) :
    parseMembersGo pv (g + 1 + 1) ('"' :: (encodeStringChars ['s', 't', 'a', 't', 'e'] ++ ('"' :: ':' :: ' ' :: '"' :: (encodeStringChars st ++ ('"' :: (',' :: ' ' :: '"' :: (encodeStringChars ['r', 'e', 'd', 'i', 'r', 'e', 'c', 't', '_', 'u', 'r', 'i'] ++ ('"' :: ':' :: ' ' :: '"' :: (encodeStringChars ru ++ ('"' :: ('\x7d' :: []))))))))))) [] =
      some (Json.obj [(String.mk ['s', 't', 'a', 't', 'e'], Json.str (String.mk st)),
        (String.mk ['r', 'e', 'd', 'i', 'r', 'e', 'c', 't', '_', 'u', 'r', 'i'],
          Json.str (String.mk ru))], []) := by
  rw [parseMembersGo_strMember pv (g + 1) ['s', 't', 'a', 't', 'e'] st
    (',' :: ' ' :: '"' :: (encodeStringChars ['r', 'e', 'd', 'i', 'r', 'e', 'c', 't', '_', 'u', 'r', 'i'] ++ ('"' :: ':' :: ' ' :: '"' :: (encodeStringChars ru ++ ('"' :: ('\x7d' :: [])))))) [] hv1]
  show parseMembersGo pv (g + 1) ('"' :: (encodeStringChars ['r', 'e', 'd', 'i', 'r', 'e', 'c', 't', '_', 'u', 'r', 'i'] ++ ('"' :: ':' :: ' ' :: '"' :: (encodeStringChars ru ++ ('"' :: ('\x7d' :: []))))))
      [(String.mk ['s', 't', 'a', 't', 'e'], Json.str (String.mk st))] = _
  rw [parseMembersGo_strMember pv g ['r', 'e', 'd', 'i', 'r', 'e', 'c', 't', '_', 'u', 'r', 'i']
    ru ('\x7d' :: [])
    [(String.mk ['s', 't', 'a', 't', 'e'], Json.str (String.mk st))] hv2]
  rfl

theorem parseValue_stateObjChars (f : Nat) (st ru : List Char) :
    parseValue (f + 2) (stateObjChars st ru) =
      some (Json.obj [("state", Json.str (String.mk st)),
        ("redirect_uri", Json.str (String.mk ru))], []) := by
  have hstep1 : parseValue (f + 2) (stateObjChars st ru) =
      parseMembersGo (parseValue (f + 1)) (('"' :: (encodeStringChars ['s', 't', 'a', 't', 'e'] ++ ('"' :: ':' :: ' ' :: '"' :: (encodeStringChars st ++ ('"' :: (',' :: ' ' :: '"' :: (encodeStringChars ['r', 'e', 'd', 'i', 'r', 'e', 'c', 't', '_', 'u', 'r', 'i'] ++ ('"' :: ':' :: ' ' :: '"' :: (encodeStringChars ru ++ ('"' :: ('\x7d' :: []))))))))))).length + 1) ('"' :: (encodeStringChars ['s', 't', 'a', 't', 'e'] ++ ('"' :: ':' :: ' ' :: '"' :: (encodeStringChars st ++ ('"' :: (',' :: ' ' :: '"' :: (encodeStringChars ['r', 'e', 'd', 'i', 'r', 'e', 'c', 't', '_', 'u', 'r', 'i'] ++ ('"' :: ':' :: ' ' :: '"' :: (encodeStringChars ru ++ ('"' :: ('\x7d' :: []))))))))))) [] := rfl
  rw [hstep1]
  rw [show ('"' :: (encodeStringChars ['s', 't', 'a', 't', 'e'] ++ ('"' :: ':' :: ' ' :: '"' :: (encodeStringChars st ++ ('"' :: (',' :: ' ' :: '"' :: (encodeStringChars ['r', 'e', 'd', 'i', 'r', 'e', 'c', 't', '_', 'u', 'r', 'i'] ++ ('"' :: ':' :: ' ' :: '"' :: (encodeStringChars ru ++ ('"' :: ('\x7d' :: []))))))))))).length + 1 = (encodeStringChars ['s', 't', 'a', 't', 'e'] ++ ('"' :: ':' :: ' ' :: '"' :: (encodeStringChars st ++ ('"' :: (',' :: ' ' :: '"' :: (encodeStringChars ['r', 'e', 'd', 'i', 'r', 'e', 'c', 't', '_', 'u', 'r', 'i'] ++ ('"' :: ':' :: ' ' :: '"' :: (encodeStringChars ru ++ ('"' :: ('\x7d' :: [])))))))))).length + 1 + 1 from rfl]
  rw [parseMembersGo_twoStrMembers (parseValue (f + 1)) (encodeStringChars ['s', 't', 'a', 't', 'e'] ++ ('"' :: ':' :: ' ' :: '"' :: (encodeStringChars st ++ ('"' :: (',' :: ' ' :: '"' :: (encodeStringChars ['r', 'e', 'd', 'i', 'r', 'e', 'c', 't', '_', 'u', 'r', 'i'] ++ ('"' :: ':' :: ' ' :: '"' :: (encodeStringChars ru ++ ('"' :: ('\x7d' :: [])))))))))).length st ru
    (parseValue_encodedString f st (',' :: ' ' :: '"' :: (encodeStringChars ['r', 'e', 'd', 'i', 'r', 'e', 'c', 't', '_', 'u', 'r', 'i'] ++ ('"' :: ':' :: ' ' :: '"' :: (encodeStringChars ru ++ ('"' :: ('\x7d' :: [])))))))
    (parseValue_encodedString f ru ('\x7d' :: []))]

theorem jsonParse_stateObj (state redirect_uri : String) :
    jsonParse (pyJsonDumpsStateObj state redirect_uri) =
      some (Json.obj [("state", Json.str state), ("redirect_uri", Json.str redirect_uri)]) := by
  have hstep : jsonParse (pyJsonDumpsStateObj state redirect_uri) =
      (match parseValue ((stateObjChars state.data redirect_uri.data).length + 2)
          (stateObjChars state.data redirect_uri.data) with
       | some (v, rest) => if (skipWs rest).isEmpty then some v else none
       | none => none) := rfl
  rw [hstep, parseValue_stateObjChars]
  rfl

/-! ## Claims about the authentication gate -/

/-- C1: on an endpoint with an empty scope requirement, a present bearer
token whose verification fails makes the gate return the synthetic mock
payload instead of an `UNAUTHORIZED` failure — evaluating
`TokenVerifier.__call__` at such an input exhibits the fallback the claim
says must not exist. -/
theorem unscoped_verification_failure_returns_mock :
    tokenVerifierCall [] (some "not-a-valid-jwt")
        (fun _ => .error "Failed to fetch signing key: connection error") =
      .ok mockPayload := rfl

/-- C2: with no bearer token the gate fails with `UNAUTHENTICATED` for every
scope requirement, and the result does not depend on the key-resolution /
validation function, which is therefore never consulted. -/
theorem no_token_unauthenticated (security_scopes : List String)
    (verify : String → Except String Payload) :
    tokenVerifierCall security_scopes none verify = .error .unauthenticated := rfl

/-- C3: with a string scope claim, `_enforce_scopes` succeeds iff every
required scope is a member of the whitespace-split granted-scope string, and
on failure the error detail lists exactly the required scopes not granted
(each such scope appears in the listed set). -/
theorem scope_enforcement_matches_subset (g : String) (R : List String) :
    (enforce_scopes (some (.str g)) R = .ok () ↔ ∀ r ∈ R, r ∈ pySplit g) ∧
    (∀ d, enforce_scopes (some (.str g)) R = .error (.unauthorized d) →
      d = "Missing required scopes: " ++
            ", ".intercalate (R.filter (fun r => !((pySplit g).contains r))) ∧
      ∀ r ∈ R, r ∉ pySplit g →
        r ∈ R.filter (fun r => !((pySplit g).contains r))) := by
  have hred : enforce_scopes (some (.str g)) R =
      (if (R.filter (fun r => !((pySplit g).contains r))).isEmpty then
        (.ok () : Except AuthExc Unit)
       else .error (.unauthorized ("Missing required scopes: " ++
         ", ".intercalate (R.filter (fun r => !((pySplit g).contains r)))))) := rfl
  constructor
  · rw [hred]
    by_cases hm : (R.filter (fun r => !((pySplit g).contains r))).isEmpty
    · rw [if_pos hm]
      refine ⟨fun _ => ?_, fun _ => rfl⟩
      intro r hr
      simp only [List.isEmpty_eq_true, List.filter_eq_nil_iff] at hm
      have h2 : (pySplit g).contains r = true := by simpa using hm r hr
      exact (contains_iff _ _).mp h2
    · rw [if_neg hm]
      constructor
      · intro h
        exact absurd h (by simp)
      · intro hall
        exfalso
        apply hm
        simp only [List.isEmpty_eq_true, List.filter_eq_nil_iff]
        intro r hr
        simp [contains_iff, hall r hr]
  · intro d hd
    rw [hred] at hd
    by_cases hm : (R.filter (fun r => !((pySplit g).contains r))).isEmpty
    · rw [if_pos hm] at hd
      exact absurd hd (by simp)
    · rw [if_neg hm] at hd
      simp only [Except.error.injEq, AuthExc.unauthorized.injEq] at hd
      refine ⟨hd.symm, ?_⟩
      intro r hr hnot
      simp only [List.mem_filter]
      refine ⟨hr, ?_⟩
      simp [contains_iff, hnot]

/-- Witness for C3 at concrete inputs: a satisfied requirement succeeds and a
missing scope is listed. -/
theorem scope_enforcement_matches_subset_witness :
    enforce_scopes (some (.str "read:messages write:messages")) ["read:messages"] = .ok () ∧
    "admin:all" ∈ (["read:messages", "admin:all"].filter
        (fun r => !((pySplit "read:messages write:messages").contains r))) :=
  ⟨((scope_enforcement_matches_subset "read:messages write:messages" ["read:messages"]).1).mpr
      (by decide),
   ((scope_enforcement_matches_subset "read:messages write:messages"
        ["read:messages", "admin:all"]).2 "Missing required scopes: admin:all" rfl).2
      "admin:all" (by decide) (by decide)⟩

/-- C4 counterexample: the missing-scope-claim failure and the
insufficient-scope failure raise the same exception class
(`UnauthorizedException`); they differ only in the detail message, so the
claimed distinction of error kinds does not hold in the code. -/
theorem missing_scope_claim_not_distinct_kind :
    errClassOf (enforce_scopes none ["read:messages"]) = some "UnauthorizedException" ∧
    errClassOf (enforce_scopes (some (.str "write:messages")) ["read:messages"]) =
      some "UnauthorizedException" ∧
    errClassOf (enforce_scopes none ["read:messages"]) =
      errClassOf (enforce_scopes (some (.str "write:messages")) ["read:messages"]) :=
  ⟨rfl, rfl, rfl⟩

/-- C4 amended: with no scope claim and a non-empty requirement the enforcer
fails with `UnauthorizedException('Missing required claim: "scope"')` — a
distinct message, but the same exception kind as the insufficient-scope
failure. -/
theorem missing_scope_claim_unauthorized (R : List String) (h : R ≠ []) :
    enforce_scopes none R =
      .error (.unauthorized "Missing required claim: \"scope\"") := rfl

/-- Witness for the amended C4. -/
theorem missing_scope_claim_unauthorized_witness :
    enforce_scopes none ["read:messages"] =
      .error (.unauthorized "Missing required claim: \"scope\"") :=
  missing_scope_claim_unauthorized ["read:messages"] (by decide)

/-! ## Claims about the authorize endpoint -/

/-- C6 counterexample: a request supplying `redirect_uri` and
`response_type=code` but no `client_id` is rejected with
`invalid_request`, so `redirect_uri` and `response_type` are not the only
mandatory parameters and no redirect is produced. -/
theorem authorize_missing_client_id_rejected :
    authorize ⟨"app-client-id", "app-secret"⟩ (some "code") none
        (some "https://client.example/cb") none none =
      .httpError 400 "invalid_request" (some "Missing required parameters") := rfl

/-- C6 amended: the authorize endpoint fails with HTTP 400
`error=invalid_request` exactly when `client_id`, `redirect_uri` or
`response_type` is missing or empty; when all three are present it fails
with `unsupported_response_type` iff `response_type` is not `"code"`, and
otherwise produces a redirect. -/
theorem authorize_validation (settings : Settings)
    (response_type client_id redirect_uri scope state : Option String) :
    (authorize settings response_type client_id redirect_uri scope state =
        .httpError 400 "invalid_request" (some "Missing required parameters") ↔
      ¬(truthyOpt client_id = true ∧ truthyOpt redirect_uri = true ∧
        truthyOpt response_type = true)) ∧
    (truthyOpt client_id = true → truthyOpt redirect_uri = true →
      truthyOpt response_type = true → response_type ≠ some "code" →
      authorize settings response_type client_id redirect_uri scope state =
        .httpError 400 "unsupported_response_type" (some "Only \"code\" is supported")) ∧
    (truthyOpt client_id = true → truthyOpt redirect_uri = true →
      response_type = some "code" →
      ∃ url, authorize settings response_type client_id redirect_uri scope state =
        .redirect url) := by
  have hred : authorize settings response_type client_id redirect_uri scope state =
      (if (!truthyOpt client_id || !truthyOpt redirect_uri || !truthyOpt response_type) then
        HttpResult.httpError 400 "invalid_request" (some "Missing required parameters")
      else if response_type != some "code" then
        .httpError 400 "unsupported_response_type" (some "Only \"code\" is supported")
      else
        .redirect (descopeAuthorizeUrl ++ "?" ++
          pyJoin "&" (([("client_id", settings.descope_inbound_app_client_id),
            ("redirect_uri", callbackUri), ("response_type", "code"),
            ("scope", pyOr scope "openid"),
            ("state", pyJsonDumpsStateObj (pyOr state "")
              (redirect_uri.getD ""))] : List (String × String)).map
              (fun kv => kv.1 ++ "=" ++ kv.2)))) := rfl
  refine ⟨?_, ?_, ?_⟩
  · rw [hred]
    by_cases hb :
        (!truthyOpt client_id || !truthyOpt redirect_uri || !truthyOpt response_type) = true
    · rw [if_pos hb]
      simp only [Bool.or_eq_true, Bool.not_eq_true'] at hb
      refine ⟨fun _ => ?_, fun _ => rfl⟩
      intro hall
      rcases hb with (h | h) | h
      · exact absurd hall.1 (by rw [h]; exact Bool.false_ne_true)
      · exact absurd hall.2.1 (by rw [h]; exact Bool.false_ne_true)
      · exact absurd hall.2.2 (by rw [h]; exact Bool.false_ne_true)
    · rw [if_neg hb]
      have hb2 : (!truthyOpt client_id || !truthyOpt redirect_uri ||
          !truthyOpt response_type) = false := Bool.eq_false_iff.mpr hb
      simp only [Bool.or_eq_false_iff, Bool.not_eq_false'] at hb2
      have hall : truthyOpt client_id = true ∧ truthyOpt redirect_uri = true ∧
          truthyOpt response_type = true := ⟨hb2.1.1, hb2.1.2, hb2.2⟩
      refine iff_of_false ?_ (by simp [hall])
      by_cases h2 : (response_type != some "code") = true
      · rw [if_pos h2]
        intro hcontra
        exact absurd hcontra (by decide)
      · rw [if_neg h2]
        intro hcontra
        exact HttpResult.noConfusion hcontra
  · intro hx hy hz hne
    rw [hred]
    have hb : (!truthyOpt client_id || !truthyOpt redirect_uri ||
        !truthyOpt response_type) = false := by
      rw [hx, hy, hz]; rfl
    rw [if_neg (by rw [hb]; exact Bool.false_ne_true)]
    rw [if_pos (by simp only [bne_iff_ne, ne_eq]; simpa using hne)]
  · intro hx hy heq
    subst heq
    rw [hred]
    have hb : (!truthyOpt client_id || !truthyOpt redirect_uri ||
        !truthyOpt (some "code")) = false := by
      rw [hx, hy]; rfl
    rw [if_neg (by rw [hb]; exact Bool.false_ne_true)]
    rw [if_neg (by decide)]
    exact ⟨_, rfl⟩

/-- Witness for the amended C6: a fully supplied request yields a redirect. -/
theorem authorize_validation_witness :
    ∃ url, authorize ⟨"app-id", "app-secret"⟩ (some "code") (some "caller-id")
        (some "https://client.example/cb") none none = .redirect url :=
  (authorize_validation ⟨"app-id", "app-secret"⟩ (some "code") (some "caller-id")
      (some "https://client.example/cb") none none).2.2 (by decide) (by decide) rfl

/-- C10: for every valid authorize request the produced redirect URL is the
provider authorize endpoint followed by `?` and the raw `&`-join of `k=v`
pairs with no percent-encoding, so the serialized state JSON (braces, quotes
and spaces included) and any caller-supplied `&` or `=` characters are
embedded verbatim. -/
theorem authorize_query_is_raw_join (settings : Settings) (cid ru : String)
    (scope state : Option String) (hcid : cid ≠ "") (hru : ru ≠ "") :
    authorize settings (some "code") (some cid) (some ru) scope state =
      .redirect (descopeAuthorizeUrl ++ "?" ++
        ("client_id" ++ "=" ++ settings.descope_inbound_app_client_id ++ "&" ++
          ("redirect_uri" ++ "=" ++ callbackUri) ++ "&" ++
          ("response_type" ++ "=" ++ "code") ++ "&" ++
          ("scope" ++ "=" ++ pyOr scope "openid") ++ "&" ++
          ("state" ++ "=" ++ pyJsonDumpsStateObj (pyOr state "") ru))) := by
  have hb : (!truthyOpt (some cid) || !truthyOpt (some ru) ||
      !truthyOpt (some "code")) = false := by
    simp [truthyOpt, hcid, hru]
  have hred : authorize settings (some "code") (some cid) (some ru) scope state =
      .redirect (descopeAuthorizeUrl ++ "?" ++
        pyJoin "&" (([("client_id", settings.descope_inbound_app_client_id),
          ("redirect_uri", callbackUri), ("response_type", "code"),
          ("scope", pyOr scope "openid"),
          ("state", pyJsonDumpsStateObj (pyOr state "") ru)] :
            List (String × String)).map (fun kv => kv.1 ++ "=" ++ kv.2))) := by
    show (if (!truthyOpt (some cid) || !truthyOpt (some ru) ||
        !truthyOpt (some "code")) then
        HttpResult.httpError 400 "invalid_request" (some "Missing required parameters")
      else if (some "code" : Option String) != some "code" then
        .httpError 400 "unsupported_response_type" (some "Only \"code\" is supported")
      else _) = _
    rw [if_neg (by rw [hb]; exact Bool.false_ne_true)]
    rw [if_neg (by decide)]
    rfl
  rw [hred]
  simp only [List.map, pyJoin]
  congr 1
  simp only [String.append_assoc]

/-- Witness for C10: the state JSON and a caller state containing `&` and
`=` appear verbatim in the redirect URL. -/
theorem authorize_query_is_raw_join_witness :
    authorize ⟨"app-id", "app-secret"⟩ (some "code") (some "caller-id")
        (some "https://client.example/cb?a=1&b=2") none (some "xyz&state=evil") =
      .redirect (descopeAuthorizeUrl ++ "?" ++
        ("client_id" ++ "=" ++ "app-id" ++ "&" ++
          ("redirect_uri" ++ "=" ++ callbackUri) ++ "&" ++
          ("response_type" ++ "=" ++ "code") ++ "&" ++
          ("scope" ++ "=" ++ "openid") ++ "&" ++
          ("state" ++ "=" ++
            pyJsonDumpsStateObj "xyz&state=evil" "https://client.example/cb?a=1&b=2"))) :=
  authorize_query_is_raw_join ⟨"app-id", "app-secret"⟩ "caller-id"
    "https://client.example/cb?a=1&b=2" none (some "xyz&state=evil")
    (by decide) (by decide)

/-! ## Claims about the token endpoint -/

/-- C7 counterexample: a body supplying exactly `grant_type` and `code` does
not pass validation — the endpoint also demands `client_id` and
`client_secret` from the caller. -/
theorem token_exactly_two_fields_rejected :
    tokenEndpoint ⟨"app-client-id", "app-secret"⟩
        ⟨some "authorization_code", some "abc123", none, none⟩ =
      .httpError 400 "invalid_request" "Missing required parameters" := rfl

/-- C7 amended: the token endpoint requires `grant_type`, `code`,
`client_id` and `client_secret` to all be present and non-empty in the
caller's body; the caller's `client_id` / `client_secret` values are then
ignored and the back-channel exchange body takes the confidential
credentials from the process-held configuration. -/
theorem token_validation (config : Settings) (body : TokenRequestBody) :
    (tokenEndpoint config body =
        .httpError 400 "invalid_request" "Missing required parameters" ↔
      ¬(truthyOpt body.grant_type = true ∧ truthyOpt body.code = true ∧
        truthyOpt body.client_id = true ∧ truthyOpt body.client_secret = true)) ∧
    (∀ c cid cs : String,
      body = ⟨some "authorization_code", some c, some cid, some cs⟩ →
      c ≠ "" → cid ≠ "" → cs ≠ "" →
      config.descope_inbound_app_client_id ≠ "" →
      config.descope_inbound_app_client_secret ≠ "" →
      tokenEndpoint config body =
        .exchange descopeTokenUrl
          [("grant_type", "authorization_code"),
           ("client_id", config.descope_inbound_app_client_id),
           ("client_secret", config.descope_inbound_app_client_secret),
           ("code", c),
           ("redirect_uri", callbackUri)]) := by
  have hred : tokenEndpoint config body =
      (if (!truthyOpt body.grant_type || !truthyOpt body.code ||
          !truthyOpt body.client_id || !truthyOpt body.client_secret) then
        TokenResult.httpError 400 "invalid_request" "Missing required parameters"
      else if body.grant_type != some "authorization_code" then
        .httpError 400 "unsupported_grant_type" "Only authorization_code is supported"
      else if (config.descope_inbound_app_client_id == "" ||
          config.descope_inbound_app_client_secret == "") then
        .httpError 500 "server_error" "OAuth configuration incomplete"
      else
        .exchange descopeTokenUrl
          [("grant_type", "authorization_code"),
           ("client_id", config.descope_inbound_app_client_id),
           ("client_secret", config.descope_inbound_app_client_secret),
           ("code", body.code.getD ""),
           ("redirect_uri", callbackUri)]) := rfl
  constructor
  · rw [hred]
    by_cases hb : (!truthyOpt body.grant_type || !truthyOpt body.code ||
        !truthyOpt body.client_id || !truthyOpt body.client_secret) = true
    · rw [if_pos hb]
      simp only [Bool.or_eq_true, Bool.not_eq_true'] at hb
      refine ⟨fun _ => ?_, fun _ => rfl⟩
      intro hall
      rcases hb with ((h | h) | h) | h
      · exact absurd hall.1 (by rw [h]; exact Bool.false_ne_true)
      · exact absurd hall.2.1 (by rw [h]; exact Bool.false_ne_true)
      · exact absurd hall.2.2.1 (by rw [h]; exact Bool.false_ne_true)
      · exact absurd hall.2.2.2 (by rw [h]; exact Bool.false_ne_true)
    · rw [if_neg hb]
      have hb2 : (!truthyOpt body.grant_type || !truthyOpt body.code ||
          !truthyOpt body.client_id || !truthyOpt body.client_secret) = false :=
        Bool.eq_false_iff.mpr hb
      simp only [Bool.or_eq_false_iff, Bool.not_eq_false'] at hb2
      have hall : truthyOpt body.grant_type = true ∧ truthyOpt body.code = true ∧
          truthyOpt body.client_id = true ∧ truthyOpt body.client_secret = true :=
        ⟨hb2.1.1.1, hb2.1.1.2, hb2.1.2, hb2.2⟩
      refine iff_of_false ?_ (by simp [hall])
      by_cases h2 : (body.grant_type != some "authorization_code") = true
      · rw [if_pos h2]
        intro hcontra
        exact absurd hcontra (by decide)
      · rw [if_neg h2]
        by_cases h3 : (config.descope_inbound_app_client_id == "" ||
            config.descope_inbound_app_client_secret == "") = true
        · rw [if_pos h3]
          intro hcontra
          exact absurd hcontra (by decide)
        · rw [if_neg h3]
          intro hcontra
          exact TokenResult.noConfusion hcontra
  · intro c cid cs hbody hc hcid hcs hid hsec
    subst hbody
    rw [hred]
    rw [if_neg (by
      simp only [truthyOpt, Bool.or_eq_true, Bool.not_eq_true', bne_eq_false_iff_eq]
      simp [hc, hcid, hcs])]
    rw [if_neg (show
      ¬(((some "authorization_code" : Option String) != some "authorization_code") = true)
      by decide)]
    rw [if_neg (by
      simp only [Bool.or_eq_true, beq_iff_eq]
      simp [hid, hsec])]
    rfl

/-- Witness for the amended C7: with all four caller fields present the
exchange body carries the configured credentials, not the caller's. -/
theorem token_validation_witness :
    tokenEndpoint ⟨"app-id", "app-secret"⟩
        ⟨some "authorization_code", some "abc", some "caller-id", some "caller-secret"⟩ =
      .exchange descopeTokenUrl
        [("grant_type", "authorization_code"),
         ("client_id", "app-id"),
         ("client_secret", "app-secret"),
         ("code", "abc"),
         ("redirect_uri", callbackUri)] :=
  (token_validation ⟨"app-id", "app-secret"⟩
      ⟨some "authorization_code", some "abc", some "caller-id", some "caller-secret"⟩).2
    "abc" "caller-id" "caller-secret" rfl (by decide) (by decide) (by decide)
    (by decide) (by decide)

/-! ### Callback reduction helpers -/

theorem callback_parse_failure_aux (c st : String)
    (hc : c ≠ "") (hst : st ≠ "") (hp : jsonParse st = none) :
    oauth_callback (some c) (some st) none none =
      .redirect (defaultCallerRedirect ++ "?code=" ++ c ++ "&state=" ++ st) := by
  have htc : truthyOpt (some c) = true := by simp [truthyOpt, hc]
  have h1 : oauth_callback (some c) (some st) none none =
      (if !truthyOpt (some c) then
        HttpResult.httpError 400 "invalid_request" (some "No authorization code received")
      else
        let p := recoverState (some st)
        let redirect_url := pyStr p.1 ++ "?code=" ++ c
        if pyTruthy p.2 then .redirect (redirect_url ++ "&state=" ++ pyStr p.2)
        else .redirect redirect_url) := rfl
  rw [h1, htc]
  rw [if_neg (by decide : ¬((!true) = true))]
  have h2 : recoverState (some st) = (.str defaultCallerRedirect, .str st) := by
    have h3 : recoverState (some st) =
        (if st == "" then (Json.str defaultCallerRedirect, Json.str "")
         else
           match jsonParse st with
           | some (Json.obj members) =>
               ((dictGet members "redirect_uri").getD (.str defaultCallerRedirect),
                (dictGet members "state").getD (.str ""))
           | _ => (.str defaultCallerRedirect, .str st)) := rfl
    rw [h3, if_neg (by simp [hst]), hp]
  rw [h2]
  rw [if_pos (by simp [pyTruthy, hst])]
  rfl

theorem callback_parse_success_empty_state_aux (c st : String)
    (members : List (String × Json)) (hc : c ≠ "")
    (hp : jsonParse st = some (Json.obj members))
    (hsf : dictGet members "state" = some (Json.str "")) :
    oauth_callback (some c) (some st) none none =
      .redirect (pyStr ((dictGet members "redirect_uri").getD
        (Json.str defaultCallerRedirect)) ++ "?code=" ++ c) := by
  have hst : st ≠ "" := by
    intro h
    rw [h] at hp
    exact Option.noConfusion (show (none : Option Json) = some (Json.obj members) from hp)
  have htc : truthyOpt (some c) = true := by simp [truthyOpt, hc]
  have h1 : oauth_callback (some c) (some st) none none =
      (if !truthyOpt (some c) then
        HttpResult.httpError 400 "invalid_request" (some "No authorization code received")
      else
        let p := recoverState (some st)
        let redirect_url := pyStr p.1 ++ "?code=" ++ c
        if pyTruthy p.2 then .redirect (redirect_url ++ "&state=" ++ pyStr p.2)
        else .redirect redirect_url) := rfl
  rw [h1, htc]
  rw [if_neg (by decide : ¬((!true) = true))]
  have h2 : recoverState (some st) =
      ((dictGet members "redirect_uri").getD (.str defaultCallerRedirect),
       (dictGet members "state").getD (.str "")) := by
    have h3 : recoverState (some st) =
        (if st == "" then (Json.str defaultCallerRedirect, Json.str "")
         else
           match jsonParse st with
           | some (Json.obj members) =>
               ((dictGet members "redirect_uri").getD (.str defaultCallerRedirect),
                (dictGet members "state").getD (.str ""))
           | _ => (.str defaultCallerRedirect, .str st)) := rfl
    rw [h3, if_neg (by simp [hst]), hp]
  rw [h2, hsf]
  rw [if_neg (by simp [pyTruthy])]


/-! ## Claims about the state round trip and the callback -/

/-- C5: serializing the AuthorizationState at the Authorization Redirector
(`json.dumps` of the `state_with_redirect` dict at main.py lines 79-96,
whose state field is `state or ""`) and deserializing the received state at
the Callback Relay (main.py lines 262-274) recovers exactly the original
`redirect_uri` and the original caller `state`, for every caller state
string including the empty string. -/
theorem authorization_state_roundtrip (redirect_uri state : String) :
    pyJsonDumpsStateObj (pyOr (some state) "") redirect_uri =
      pyJsonDumpsStateObj state redirect_uri ∧
    recoverState (some (pyJsonDumpsStateObj state redirect_uri)) =
      (Json.str redirect_uri, Json.str state) := by
  constructor
  · by_cases h : state = "" <;> simp [pyOr, h]
  · have hne : pyJsonDumpsStateObj state redirect_uri ≠ "" := by
      intro h
      have h2 : stateObjChars state.data redirect_uri.data = [] := congrArg String.data h
      exact absurd h2 (by simp [stateObjChars])
    have h1 : recoverState (some (pyJsonDumpsStateObj state redirect_uri)) =
        (if pyJsonDumpsStateObj state redirect_uri == "" then
          (Json.str defaultCallerRedirect, Json.str "")
         else
          match jsonParse (pyJsonDumpsStateObj state redirect_uri) with
          | some (Json.obj members) =>
              ((dictGet members "redirect_uri").getD (.str defaultCallerRedirect),
               (dictGet members "state").getD (.str ""))
          | _ => (.str defaultCallerRedirect,
                  .str (pyJsonDumpsStateObj state redirect_uri))) := rfl
    rw [h1, if_neg (by simp [hne]), jsonParse_stateObj]
    rfl

/-- C8: a callback carrying an authorization code and a state parameter that
fails to deserialize does not fail the flow: it redirects to the default
caller redirect target (with the code and the raw state attached) instead of
returning an error. -/
theorem callback_state_parse_failure_redirects (c st : String)
    (hc : c ≠ "") (hst : st ≠ "") (hp : jsonParse st = none) :
    oauth_callback (some c) (some st) none none =
      .redirect (defaultCallerRedirect ++ "?code=" ++ c ++ "&state=" ++ st) :=
  callback_parse_failure_aux c st hc hst hp

/-- Witness for C8 at a concrete non-JSON state. -/
theorem callback_state_parse_failure_redirects_witness :
    oauth_callback (some "abc") (some "notjson") none none =
      .redirect (defaultCallerRedirect ++ "?code=" ++ "abc" ++ "&state=" ++ "notjson") :=
  callback_state_parse_failure_redirects "abc" "notjson" (by decide) (by decide) rfl

/-- C9: when the state is present but not valid JSON, the redirect to the
default target carries a `state` query parameter equal to the raw unparsed
state string; when the state deserializes to an object whose caller-state
field is the empty string, the redirect carries no state parameter at all. -/
theorem callback_state_forwarding :
    (∀ (c st : String), c ≠ "" → st ≠ "" → jsonParse st = none →
      oauth_callback (some c) (some st) none none =
        .redirect (defaultCallerRedirect ++ "?code=" ++ c ++ "&state=" ++ st)) ∧
    (∀ (c st : String) (members : List (String × Json)), c ≠ "" →
      jsonParse st = some (Json.obj members) →
      dictGet members "state" = some (Json.str "") →
      oauth_callback (some c) (some st) none none =
        .redirect (pyStr ((dictGet members "redirect_uri").getD
          (Json.str defaultCallerRedirect)) ++ "?code=" ++ c)) :=
  ⟨fun c st hc hst hp => callback_parse_failure_aux c st hc hst hp,
   fun c st members hc hp hsf =>
     callback_parse_success_empty_state_aux c st members hc hp hsf⟩

/-- Witness for C9: a concrete non-JSON state is forwarded raw, and a
concrete empty caller-state yields a redirect without a state parameter. -/
theorem callback_state_forwarding_witness :
    oauth_callback (some "xy") (some "###") none none =
      .redirect (defaultCallerRedirect ++ "?code=" ++ "xy" ++ "&state=" ++ "###") ∧
    oauth_callback (some "zz") (some "\x7b\"state\": \"\"\x7d") none none =
      .redirect (defaultCallerRedirect ++ "?code=" ++ "zz") :=
  ⟨callback_state_forwarding.1 "xy" "###" (by decide) (by decide) rfl,
   callback_state_forwarding.2 "zz" "\x7b\"state\": \"\"\x7d" [("state", Json.str "")]
     (by decide) rfl rfl⟩


end FastApiGpt
